import Mathlib

/-!
Verification of the deepspeed_in_aml notebooks against their specification.

The repository is a sequence of Jupyter notebooks that provision an AzureML
compute cluster, build a container environment, prepare the GLUE/CoLA dataset
and submit a distributed DeepSpeed training run, all driven by a flat YAML
configuration document (src/config.yml) and a DeepSpeed JSON configuration
(src/deepspeed_config.json). This file gives a shallow embedding of those
documents and of the notebook cells the claims are about, and proves or
refutes each claim.
-/

/-- A scalar value of the YAML configuration document: a string, an integer or
a boolean (the scalar kinds that occur in src/config.yml). -/
inductive YScalar where
  | s (v : String)
  | i (v : Int)
  | b (v : Bool)
deriving DecidableEq, Repr

/-- A value of the configuration document: a scalar, or a one-level nested map
of scalars (the only nesting depth src/config.yml uses). -/
inductive YVal where
  | scalar (v : YScalar)
  | map (kvs : List (String × YScalar))
deriving DecidableEq, Repr

/-- Shorthand for a string-valued entry. -/
def YVal.str (v : String) : YVal := .scalar (.s v)

/-- Shorthand for an integer-valued entry. -/
def YVal.int (v : Int) : YVal := .scalar (.i v)

/-- The configuration document src/config.yml as the dictionary that
yaml.safe_load returns: every top-level key in file order with its value. -/
def configYml : List (String × YVal) := [
  ("model", .str "distilbert-base-uncased"),
  ("task", .str "cola"),
  ("task_dataset_version", .int 1),
  ("experiment", .str "training-quickstart"),
  ("description", .str "distilbert for linguistic acceptability"),
  ("metric", .str "matthews_correlation"),
  ("val_key", .str "validation"),
  ("data_dir", .str "data/glue/cola"),
  ("source_directory", .str "src"),
  ("environment", .str "deepspeed-transformers"),
  ("environment_dockerfile", .str "src/dockerfile"),
  ("training_command", .str "python train.py"),
  ("compute_target", .str "gpu-K80-1"),
  ("compute_size", .str "STANDARD_NC4AS_T4_V3"),
  ("compute_node_count", .int 2),
  ("model_output_dir", .str "outputs/model"),
  ("registered_model_name", .str "distilbert-base-uncased-cola"),
  ("pytorch_configuration", .map [("node_count", .i 2), ("process_count", .i 2)]),
  ("training_args", .map [
    ("output_dir", .s "outputs"),
    ("overwrite_output_dir", .b true),
    ("do_eval", .b true),
    ("evaluation_strategy", .s "epoch"),
    ("num_train_epochs", .i 3),
    ("per_device_train_batch_size", .i 16),
    ("per_device_eval_batch_size", .i 16),
    ("disable_tqdm", .b true),
    ("report_to", .s "azure_ml"),
    ("deepspeed", .s "deepspeed_config.json")])]

/-- Python dictionary lookup config[k] on a loaded configuration document. -/
def cfgGet (cfg : List (String × YVal)) (k : String) : Option YVal :=
  cfg.lookup k

/-- The string value of config[k]; a marker when the key is absent or not a
string (never reached on configYml for the keys the notebooks read). -/
def cfgStr (cfg : List (String × YVal)) (k : String) : String :=
  match cfgGet cfg k with
  | some (.scalar (.s v)) => v
  | _ => "<KeyError>"

/-- The integer value of config[k]; 0 marks an absent or non-integer key
(never reached on configYml for the keys the notebooks read). -/
def cfgInt (cfg : List (String × YVal)) (k : String) : Int :=
  match cfgGet cfg k with
  | some (.scalar (.i v)) => v
  | _ => 0

/-- The nested map config[k]; empty when the key is absent or scalar. -/
def cfgMap (cfg : List (String × YVal)) (k : String) : List (String × YScalar) :=
  match cfgGet cfg k with
  | some (.map kvs) => kvs
  | _ => []

/-- The nested scalar config[k1][k2]. -/
def cfgSub (cfg : List (String × YVal)) (k1 k2 : String) : Option YScalar :=
  (cfgMap cfg k1).lookup k2

/-- Python str() applied to a YAML scalar, as used when building tag values. -/
def pyStr : YScalar → String
  | .s v => v
  | .i v => toString v
  | .b v => if v then "True" else "False"

/-!
Compute-setup notebook (01 Create compute): the try/except cell that looks up
the compute cluster by name and provisions it on ComputeTargetException.
-/

/-- The argument record of AmlCompute.provisioning_configuration as the
compute-setup notebook builds it. -/
structure ProvisioningConfiguration where
  vm_size : String
  max_nodes : Int
deriving DecidableEq, Repr

/-- One ComputeTarget.create call: the cluster name and the provisioning
configuration passed along. -/
structure CreateCall where
  name : String
  provisioning_configuration : ProvisioningConfiguration
deriving DecidableEq, Repr

/-- What the external SDK does on ComputeTarget(workspace, name): return the
existing cluster, or raise ComputeTargetException. -/
inductive LookupOutcome where
  | found
  | computeTargetException
deriving DecidableEq, Repr

/-- Which cluster the cell leaves bound to the name cluster. -/
inductive ClusterBinding where
  | existing (name : String)
  | created (call : CreateCall)
deriving DecidableEq, Repr

/-- The observable result of the compute-setup cell: every
ComputeTarget.create call it issued, and the final cluster binding. -/
structure ComputeSetupResult where
  createCalls : List CreateCall
  cluster : ClusterBinding
deriving DecidableEq, Repr

/-- The compute-setup notebook's try/except cell, statement for statement:
try cluster = ComputeTarget(workspace, name=config[compute_target]); except
ComputeTargetException: compute_config = provisioning_configuration(
vm_size=config[compute_size], max_nodes=config[compute_node_count]);
cluster = ComputeTarget.create(workspace, name=config[compute_target],
provisioning_configuration=compute_config). The lookup outcome is the
external SDK's answer. -/
def computeSetupCell (cfg : List (String × YVal)) (r : LookupOutcome) :
    ComputeSetupResult :=
  match r with
  | .found =>
      { createCalls := [], cluster := .existing (cfgStr cfg "compute_target") }
  | .computeTargetException =>
      let compute_config : ProvisioningConfiguration :=
        { vm_size := cfgStr cfg "compute_size",
          max_nodes := cfgInt cfg "compute_node_count" }
      let call : CreateCall :=
        { name := cfgStr cfg "compute_target",
          provisioning_configuration := compute_config }
      { createCalls := [call], cluster := .created call }

/-!
Claim C2 material: the top-level keys of config.yml against the recognized
keys the specification's interface section lists.
-/

/-- The top-level keys of src/config.yml in file order. -/
def configTopKeys : List String := configYml.map Prod.fst

/-- Modelled from the spec: the recognized top-level configuration keys the
specification's external-interfaces section enumerates. -/
def specRecognizedKeys : List String := [
  "model", "task", "experiment", "metric", "data_dir", "source_directory",
  "environment", "environment_dockerfile", "training_command",
  "compute_target", "compute_size", "compute_node_count",
  "registered_model_name", "pytorch_configuration", "training_args"]

/-- The top-level keys src/config.yml holds beyond the recognized list. -/
def extraTopKeys : List String :=
  ["task_dataset_version", "description", "val_key", "model_output_dir"]

/-- C1: in the compute-setup notebook a new cluster is provisioned if and only
if the ComputeTarget lookup under config[compute_target] raises
ComputeTargetException; in that case the create call carries the same name,
vm_size = config[compute_size] and max_nodes = config[compute_node_count];
when the lookup succeeds no provisioning call is made and the existing
cluster is used unchanged. -/
theorem compute_cluster_provisioned_iff_lookup_fails :
    (∀ r : LookupOutcome,
      (computeSetupCell configYml r).createCalls ≠ [] ↔
        r = .computeTargetException)
    ∧ computeSetupCell configYml .computeTargetException =
        { createCalls :=
            [{ name := cfgStr configYml "compute_target",
               provisioning_configuration :=
                 { vm_size := cfgStr configYml "compute_size",
                   max_nodes := cfgInt configYml "compute_node_count" } }],
          cluster :=
            .created
              { name := cfgStr configYml "compute_target",
                provisioning_configuration :=
                  { vm_size := cfgStr configYml "compute_size",
                    max_nodes := cfgInt configYml "compute_node_count" } } }
    ∧ computeSetupCell configYml .found =
        { createCalls := [],
          cluster := .existing (cfgStr configYml "compute_target") }
    ∧ cfgStr configYml "compute_target" = "gpu-K80-1"
    ∧ cfgStr configYml "compute_size" = "STANDARD_NC4AS_T4_V3"
    ∧ cfgInt configYml "compute_node_count" = 2 := by
  refine ⟨fun r => ?_, by decide, by decide, by decide, by decide, by decide⟩
  cases r <;> simp [computeSetupCell]

/-- C2 counterexample: task_dataset_version is a top-level key of
src/config.yml and is not among the recognized keys the spec lists, so the
document does have top-level keys other than the recognized ones. -/
theorem config_extra_key_counterexample :
    configTopKeys.contains "task_dataset_version" = true
    ∧ specRecognizedKeys.contains "task_dataset_version" = false := by
  decide

/-- C2 (amended): src/config.yml contains every recognized key the spec lists,
with node_count and process_count under pytorch_configuration and the epoch
count, batch sizes and evaluation strategy under training_args, but it also
contains exactly four further top-level keys outside the recognized list:
task_dataset_version, description, val_key and model_output_dir. -/
theorem config_keys_recognized_plus_extras :
    specRecognizedKeys.all (fun k => configTopKeys.contains k) = true
    ∧ configTopKeys.all
        (fun k => specRecognizedKeys.contains k || extraTopKeys.contains k) = true
    ∧ extraTopKeys.all
        (fun k => configTopKeys.contains k && !(specRecognizedKeys.contains k)) = true
    ∧ (cfgMap configYml "pytorch_configuration").map Prod.fst =
        ["node_count", "process_count"]
    ∧ ((cfgMap configYml "training_args").map Prod.fst).contains
        "num_train_epochs" = true
    ∧ ((cfgMap configYml "training_args").map Prod.fst).contains
        "per_device_train_batch_size" = true
    ∧ ((cfgMap configYml "training_args").map Prod.fst).contains
        "evaluation_strategy" = true := by
  decide

/-!
Data-preparation notebook (03 Prepare data): the dataset-affecting operations,
one per notebook cell that touches the data.
-/

/-- A dataset-affecting operation of the data-preparation notebook. -/
inductive DataPrepOp where
  | loadDataset (path : String) (configName : String)
  | tokenizeMap (padding : String) (truncation : Bool) (batched : Bool)
  | saveToDisk (dir : String)
  | datastoreUpload (src_dir : String) (target_path : String) (overwrite : Bool)
  | registerDataset (name : String) (tags : List (String × String))
      (createNewVersion : Bool)
deriving DecidableEq, Repr

/-- Cell: data = datasets.load_dataset("glue", config[task]). -/
def dataPrepLoadCell (cfg : List (String × YVal)) : List DataPrepOp :=
  [.loadDataset "glue" (cfgStr cfg "task")]

/-- Cell: tokenizer = AutoTokenizer.from_pretrained(config[model]); def
tokenizer_function calling the tokenizer with padding="max_length" and
truncation=True; data = data.map(tokenizer_function, batched=True);
data.save_to_disk(config[data_dir]). -/
def dataPrepTokenizeCell (cfg : List (String × YVal)) : List DataPrepOp :=
  [.tokenizeMap "max_length" true true, .saveToDisk (cfgStr cfg "data_dir")]

/-- Cell: datastore.upload(src_dir=config[data_dir],
target_path=config[data_dir], overwrite=True). -/
def dataPrepUploadCell (cfg : List (String × YVal)) : List DataPrepOp :=
  [.datastoreUpload (cfgStr cfg "data_dir") (cfgStr cfg "data_dir") true]

/-- Cell: name = config[task]; tags = task/model pairs from the config;
path = datastore.path(config[data_dir]); amldataset =
Dataset.File.from_files(path); amldataset.register(workspace, name,
description, tags, True). -/
def dataPrepRegisterCell (cfg : List (String × YVal)) : List DataPrepOp :=
  [.registerDataset (cfgStr cfg "task")
    [("task", cfgStr cfg "task"), ("model", cfgStr cfg "model")] true]

/-- Every dataset-affecting operation of the data-preparation notebook, in
cell order. -/
def dataPrepOps (cfg : List (String × YVal)) : List DataPrepOp :=
  dataPrepLoadCell cfg ++ dataPrepTokenizeCell cfg ++ dataPrepUploadCell cfg
    ++ dataPrepRegisterCell cfg

/-- C3: the data-preparation notebook performs exactly these operations in
this order: download the GLUE subset named by config[task], tokenize every
example with the single tokenizer function, save to config[data_dir], upload
that directory to the datastore, and register the files as a dataset named
config[task]; no other dataset transformation occurs. -/
theorem data_prep_pipeline_ops :
    dataPrepOps configYml =
      [.loadDataset "glue" "cola",
       .tokenizeMap "max_length" true true,
       .saveToDisk "data/glue/cola",
       .datastoreUpload "data/glue/cola" "data/glue/cola" true,
       .registerDataset "cola"
         [("task", "cola"), ("model", "distilbert-base-uncased")] true]
    ∧ cfgStr configYml "task" = "cola"
    ∧ cfgStr configYml "data_dir" = "data/glue/cola"
    ∧ cfgStr configYml "model" = "distilbert-base-uncased" := by
  decide

/-!
Training notebook (04 train model.ipynb.amltmp): the values the notebook
passes to PyTorchConfiguration, Environment.get and ScriptRunConfig.
-/

/-- The keyword arguments PyTorchConfiguration receives, spread from
config[pytorch_configuration]. -/
def trainNbDistributedJobConfig (cfg : List (String × YVal)) :
    List (String × YScalar) :=
  cfgMap cfg "pytorch_configuration"

/-- The environment name the amltmp training notebook passes to
Environment.get: the hard-coded env_name variable (the config-based lookup
in that cell is commented out). -/
def trainNbEnvName : String := "deepspeed-transformers-datasets"

/-- The arguments of the ScriptRunConfig call in the training notebook. -/
structure ScriptRunConfigArgs where
  source_directory : String
  command : String
  environmentName : String
  compute_target : String
  distributed_job_config : List (String × YScalar)
deriving DecidableEq, Repr

/-- The ScriptRunConfig the amltmp training notebook builds:
ScriptRunConfig(source_directory=config[source_directory],
command=config[training_command], environment=environment,
compute_target=config[compute_target],
distributed_job_config=distributed_job_config), where environment is the
object Environment.get(workspace, name=env_name) returned. -/
def trainNbAmlConfig (cfg : List (String × YVal)) : ScriptRunConfigArgs :=
  { source_directory := cfgStr cfg "source_directory",
    command := cfgStr cfg "training_command",
    environmentName := trainNbEnvName,
    compute_target := cfgStr cfg "compute_target",
    distributed_job_config := trainNbDistributedJobConfig cfg }

/-- C4 counterexample: the environment name the amltmp training notebook
passes to Environment.get is the hard-coded string
deepspeed-transformers-datasets, which differs from config[environment]
(deepspeed-transformers), so not every value passed equals the value read
from src/config.yml. -/
theorem train_env_name_hardcoded_counterexample :
    (trainNbAmlConfig configYml).environmentName ≠ cfgStr configYml "environment"
    ∧ (trainNbAmlConfig configYml).environmentName =
        "deepspeed-transformers-datasets"
    ∧ cfgStr configYml "environment" = "deepspeed-transformers" := by
  decide

/-- C4 (amended): source_directory, training_command, compute_target and the
pytorch_configuration keyword arguments reach ScriptRunConfig exactly as read
from src/config.yml with no parsing, validation or substitution in between;
the environment, however, is looked up under the hard-coded name
deepspeed-transformers-datasets (the config-based lookup is commented out),
which differs from config[environment]. -/
theorem train_run_values_passed_verbatim :
    (trainNbAmlConfig configYml).source_directory =
      cfgStr configYml "source_directory"
    ∧ (trainNbAmlConfig configYml).command = cfgStr configYml "training_command"
    ∧ (trainNbAmlConfig configYml).compute_target =
        cfgStr configYml "compute_target"
    ∧ (trainNbAmlConfig configYml).distributed_job_config =
        cfgMap configYml "pytorch_configuration"
    ∧ (trainNbAmlConfig configYml).distributed_job_config =
        [("node_count", .i 2), ("process_count", .i 2)]
    ∧ (trainNbAmlConfig configYml).source_directory = "src"
    ∧ (trainNbAmlConfig configYml).command = "python train.py"
    ∧ (trainNbAmlConfig configYml).compute_target = "gpu-K80-1"
    ∧ (trainNbAmlConfig configYml).environmentName =
        "deepspeed-transformers-datasets"
    ∧ (trainNbAmlConfig configYml).environmentName ≠
        cfgStr configYml "environment" := by
  decide

/-!
Metadata tags: the run.set_tags dictionary of the training notebook and the
tags the data-preparation notebook attaches when registering the dataset.
-/

/-- Python str() of config[training_args][k], as the tag cell computes it. -/
def trainingArgStr (cfg : List (String × YVal)) (k : String) : String :=
  match cfgSub cfg "training_args" k with
  | some v => pyStr v
  | none => "<KeyError>"

/-- The dictionary run.set_tags receives in the training notebook. -/
def runTags (cfg : List (String × YVal)) : List (String × String) :=
  [("model", cfgStr cfg "model"),
   ("task", cfgStr cfg "task"),
   ("metric", cfgStr cfg "metric"),
   ("environment", cfgStr cfg "environment"),
   ("num_train_epochs", trainingArgStr cfg "num_train_epochs"),
   ("batch_size", trainingArgStr cfg "per_device_train_batch_size")]

/-- The tags the data-preparation notebook passes to amldataset.register. -/
def datasetTags (cfg : List (String × YVal)) : List (String × String) :=
  [("task", cfgStr cfg "task"), ("model", cfgStr cfg "model")]

/-- C6 counterexample: the run tag num_train_epochs holds the string "3"
produced by Python str(), while config[training_args][num_train_epochs] is
the integer 3; as YAML values the string "3" and the integer 3 differ, so the
numeric tags are not the training_args values passed verbatim. -/
theorem run_tags_str_rendering_counterexample :
    (runTags configYml).lookup "num_train_epochs" = some "3"
    ∧ cfgSub configYml "training_args" "num_train_epochs" = some (.i 3)
    ∧ (YScalar.s "3" ≠ YScalar.i 3) := by
  decide

/-- C6 (amended): the run tags map model, task, metric and environment to
exactly config[model], config[task], config[metric] and config[environment],
and num_train_epochs and batch_size to the Python str() renderings of
config[training_args][num_train_epochs] and
config[training_args][per_device_train_batch_size] (the integers 3 and 16
rendered as "3" and "16"); the registered dataset's tags map task and model
to exactly config[task] and config[model]. -/
theorem tags_passed_from_config :
    runTags configYml =
      [("model", cfgStr configYml "model"),
       ("task", cfgStr configYml "task"),
       ("metric", cfgStr configYml "metric"),
       ("environment", cfgStr configYml "environment"),
       ("num_train_epochs", trainingArgStr configYml "num_train_epochs"),
       ("batch_size", trainingArgStr configYml "per_device_train_batch_size")]
    ∧ runTags configYml =
      [("model", "distilbert-base-uncased"),
       ("task", "cola"),
       ("metric", "matthews_correlation"),
       ("environment", "deepspeed-transformers"),
       ("num_train_epochs", "3"),
       ("batch_size", "16")]
    ∧ trainingArgStr configYml "num_train_epochs" =
        pyStr (YScalar.i 3)
    ∧ datasetTags configYml = [("task", "cola"), ("model", "distilbert-base-uncased")]
    ∧ datasetTags configYml =
        [("task", cfgStr configYml "task"), ("model", cfgStr configYml "model")] := by
  decide

/-!
DeepSpeed accelerator configuration (src/deepspeed_config.json): the JSON
document, consumed opaquely by the external DeepSpeed library.
-/

/-- A JSON value of the DeepSpeed configuration file: string, number, boolean,
array of numbers, or object. -/
inductive JVal where
  | jstr (s : String)
  | jnum (q : Rat)
  | jbool (b : Bool)
  | jarr (xs : List Rat)
  | jobj (kvs : List (String × JVal))

/-- The document src/deepspeed_config.json, field for field in file order. -/
def deepspeedConfig : List (String × JVal) := [
  ("fp16", .jobj [
    ("enabled", .jbool false),
    ("loss_scale", .jnum 0),
    ("loss_scale_window", .jnum 1000),
    ("initial_scale_power", .jnum 32),
    ("hysteresis", .jnum 2),
    ("min_loss_scale", .jnum 1)]),
  ("zero_optimization", .jobj [
    ("stage", .jnum 2),
    ("allgather_partitions", .jbool true),
    ("allgather_bucket_size", .jnum 2e8),
    ("overlap_comm", .jbool true),
    ("reduce_scatter", .jbool true),
    ("reduce_bucket_size", .jnum 2e8),
    ("contiguous_gradients", .jbool true),
    ("cpu_offload", .jbool true)]),
  ("zero_allow_untested_optimizer", .jbool true),
  ("optimizer", .jobj [
    ("type", .jstr "AdamW"),
    ("params", .jobj [
      ("lr", .jnum 5e-5),
      ("betas", .jarr [0.9, 0.999]),
      ("eps", .jnum 1e-8),
      ("weight_decay", .jnum 0.0)])]),
  ("scheduler", .jobj [
    ("type", .jstr "WarmupLR"),
    ("params", .jobj [
      ("warmup_min_lr", .jnum 0),
      ("warmup_max_lr", .jnum 5e-5),
      ("warmup_num_steps", .jnum 0)])]),
  ("steps_per_print", .jnum 2000),
  ("wall_clock_breakdown", .jbool false),
  ("train_batch_size", .jstr "auto"),
  ("gradient_accumulation", .jnum 1),
  ("train_micro_batch_size_per_gpu", .jstr "auto")]

/-- Field lookup inside a JSON object value. -/
def jfield (v : JVal) (k : String) : Option JVal :=
  match v with
  | .jobj kvs => kvs.lookup k
  | _ => none

/-- Top-level field of the DeepSpeed configuration document. -/
def dsField (k : String) : Option JVal := deepspeedConfig.lookup k

/-- The field k2 of the object at top-level field k1. -/
def dsPath2 (k1 k2 : String) : Option JVal :=
  (dsField k1).bind (fun v => jfield v k2)

/-- The field k3 of the object at dsPath2 k1 k2. -/
def dsPath3 (k1 k2 k3 : String) : Option JVal :=
  (dsPath2 k1 k2).bind (fun v => jfield v k3)

/-- C5: the DeepSpeed configuration file specifies an optimizer type
(optimizer.type = AdamW) and learning rate (optimizer.params.lr = 5e-5), a
gradient-partitioning stage (zero_optimization.stage = 2), a
communication-overlap flag (zero_optimization.overlap_comm = true), and a
precision-mode section fp16 (with enabled = false), all as plain JSON fields. -/
theorem deepspeed_config_fields :
    dsPath2 "optimizer" "type" = some (.jstr "AdamW")
    ∧ dsPath3 "optimizer" "params" "lr" = some (.jnum 5e-5)
    ∧ dsPath2 "zero_optimization" "stage" = some (.jnum 2)
    ∧ dsPath2 "zero_optimization" "overlap_comm" = some (.jbool true)
    ∧ (dsField "fp16").isSome = true
    ∧ dsPath2 "fp16" "enabled" = some (.jbool false) :=
  ⟨rfl, rfl, rfl, rfl, rfl, rfl⟩

/-!
The tokenizer function of the data-preparation notebook. The pretrained
tokenizer itself is external library code; it is modelled by its documented
call contract: an arbitrary per-sentence encoding, a model maximum length,
and a padding token, where truncation=True cuts the ids to the maximum
length and padding="max_length" pads them with the padding token up to it.
-/

/-- An external pretrained tokenizer: its raw encoding, maximum length and
padding token id. The encoding is arbitrary: nothing in this repository
constrains it. -/
structure HFTokenizer where
  encode : String → List Nat
  model_max_length : Nat
  pad_token_id : Nat

/-- One tokenizer call on one sentence, following the documented semantics of
the padding and truncation keyword arguments. -/
def hfTokenizeOne (tk : HFTokenizer) (padding : String) (truncation : Bool)
    (sentence : String) : List Nat :=
  let ids := tk.encode sentence
  let t := if truncation then ids.take tk.model_max_length else ids
  if padding = "max_length" then
    t ++ List.replicate (tk.model_max_length - t.length) tk.pad_token_id
  else t

/-- tokenizer_function from the data-preparation notebook: calls the
tokenizer on the batch of sentences with padding="max_length" and
truncation=True. -/
def tokenizer_function (tk : HFTokenizer) (sentences : List String) :
    List (List Nat) :=
  sentences.map (hfTokenizeOne tk "max_length" true)

/-- C8: tokenizer_function calls the tokenizer with padding="max_length" and
truncation=True, so every tokenized example it returns has the tokenizer's
fixed maximum length, whatever the input sentences and whatever the raw
encoding does. -/
theorem tokenizer_function_fixed_length (tk : HFTokenizer)
    (batch : List String) :
    ∀ out ∈ tokenizer_function tk batch, out.length = tk.model_max_length := by
  intro out hmem
  rcases List.mem_map.mp hmem with ⟨s, _, rfl⟩
  unfold hfTokenizeOne
  simp only [if_pos rfl, if_pos]
  rw [List.length_append, List.length_replicate]
  have h := List.length_take_le tk.model_max_length (tk.encode s)
  omega

/-- The concrete tokenizer used to witness tokenizer_function_fixed_length:
every character encodes to token 7, maximum length 4, padding token 0. -/
def tkWitness : HFTokenizer :=
  { encode := fun s => List.replicate s.length 7,
    model_max_length := 4,
    pad_token_id := 0 }

/-- C8 witness: on the sentence "ab" the tokenizer function yields
[7, 7, 0, 0], whose length is the model maximum length 4. -/
theorem tokenizer_function_fixed_length_witness :
    ([7, 7, 0, 0] : List Nat).length = tkWitness.model_max_length :=
  tokenizer_function_fixed_length tkWitness ["ab"] [7, 7, 0, 0] (by decide)

/-!
A small Python abstract syntax for the notebook cells, rich enough to carry
every code cell of the six notebooks, with analyses (imports, call targets,
branching statements) and an interpreter used to settle the NameError claim.
-/

/-- A Python expression as the notebook cells use them. -/
inductive PyExpr where
  | strLit (s : String)
  | intLit (n : Int)
  | boolLit (b : Bool)
  | name (x : String)
  | attr (e : PyExpr) (fld : String)
  | item (e : PyExpr) (idx : PyExpr)
  | call (f : PyExpr) (args : List PyExpr) (kwargs : List (String × PyExpr))
  | fstr (parts : List PyExpr)
  | fmt (e : PyExpr) (spec : String)
  | dict (kvs : List (PyExpr × PyExpr))
  | tup (es : List PyExpr)
  | listE (es : List PyExpr)
  | binop (op : String) (a b : PyExpr)
  | star2 (e : PyExpr)

/-- A Python statement as the notebook cells use them. -/
inductive PyStmt where
  | pyImport (modules : List String)
  | fromImport (module : String) (names : List String)
  | assign (target : PyExpr) (e : PyExpr)
  | exprStmt (e : PyExpr)
  | tryExcept (body : List PyStmt) (exc : String) (handler : List PyStmt)
  | forIn (x : String) (iter : PyExpr) (body : List PyStmt)
  | withAs (ctx : PyExpr) (asName : String) (body : List PyStmt)
  | defFn (fname : String) (params : List String) (body : List PyStmt)
  | ret (e : PyExpr)
  | ifStmt (c : PyExpr) (thn els : List PyStmt)
  | whileStmt (c : PyExpr) (body : List PyStmt)

/-- The name of a call target: the called function, or the final attribute
component of a method call. -/
def calleeLast : PyExpr → String
  | .name x => x
  | .attr _ fld => fld
  | _ => "<expr>"

mutual

/-- The name of every call target in an expression. -/
def exprCallees : PyExpr → List String
  | .strLit _ => []
  | .intLit _ => []
  | .boolLit _ => []
  | .name _ => []
  | .attr e _ => exprCallees e
  | .item e i => exprCallees e ++ exprCallees i
  | .call f args kwargs =>
      calleeLast f :: (exprCallees f ++ exprCalleesList args ++ exprCalleesKw kwargs)
  | .fstr parts => exprCalleesList parts
  | .fmt e _ => exprCallees e
  | .dict kvs => exprCalleesPairs kvs
  | .tup es => exprCalleesList es
  | .listE es => exprCalleesList es
  | .binop _ a b => exprCallees a ++ exprCallees b
  | .star2 e => exprCallees e

/-- Call targets of a list of expressions. -/
def exprCalleesList : List PyExpr → List String
  | [] => []
  | e :: es => exprCallees e ++ exprCalleesList es

/-- Call targets of keyword arguments. -/
def exprCalleesKw : List (String × PyExpr) → List String
  | [] => []
  | (_, e) :: es => exprCallees e ++ exprCalleesKw es

/-- Call targets of dictionary entries. -/
def exprCalleesPairs : List (PyExpr × PyExpr) → List String
  | [] => []
  | (k, v) :: es => exprCallees k ++ exprCallees v ++ exprCalleesPairs es

end

mutual

/-- Every call target in a statement, bodies included. -/
def stmtCallees : PyStmt → List String
  | .pyImport _ => []
  | .fromImport _ _ => []
  | .assign t e => exprCallees t ++ exprCallees e
  | .exprStmt e => exprCallees e
  | .tryExcept body _ handler => stmtsCallees body ++ stmtsCallees handler
  | .forIn _ iter body => exprCallees iter ++ stmtsCallees body
  | .withAs ctx _ body => exprCallees ctx ++ stmtsCallees body
  | .defFn _ _ body => stmtsCallees body
  | .ret e => exprCallees e
  | .ifStmt c thn els => exprCallees c ++ stmtsCallees thn ++ stmtsCallees els
  | .whileStmt c body => exprCallees c ++ stmtsCallees body

/-- Call targets of a statement list. -/
def stmtsCallees : List PyStmt → List String
  | [] => []
  | s :: ss => stmtCallees s ++ stmtsCallees ss

end

mutual

/-- Every module a statement imports, bodies included. -/
def stmtImports : PyStmt → List String
  | .pyImport ms => ms
  | .fromImport m _ => [m]
  | .assign _ _ => []
  | .exprStmt _ => []
  | .tryExcept body _ handler => stmtsImports body ++ stmtsImports handler
  | .forIn _ _ body => stmtsImports body
  | .withAs _ _ body => stmtsImports body
  | .defFn _ _ body => stmtsImports body
  | .ret _ => []
  | .ifStmt _ thn els => stmtsImports thn ++ stmtsImports els
  | .whileStmt _ body => stmtsImports body

/-- Imports of a statement list. -/
def stmtsImports : List PyStmt → List String
  | [] => []
  | s :: ss => stmtImports s ++ stmtsImports ss

end

/-- How many try/except, if and while statements a piece of code holds. -/
structure BranchCount where
  tries : Nat
  ifs : Nat
  whiles : Nat
deriving DecidableEq, Repr

/-- Pointwise sum of branch counts. -/
def BranchCount.add (a b : BranchCount) : BranchCount :=
  ⟨a.tries + b.tries, a.ifs + b.ifs, a.whiles + b.whiles⟩

mutual

/-- The branching statements a statement holds, itself included. -/
def stmtBranches : PyStmt → BranchCount
  | .pyImport _ => ⟨0, 0, 0⟩
  | .fromImport _ _ => ⟨0, 0, 0⟩
  | .assign _ _ => ⟨0, 0, 0⟩
  | .exprStmt _ => ⟨0, 0, 0⟩
  | .tryExcept body _ handler =>
      BranchCount.add ⟨1, 0, 0⟩
        (BranchCount.add (stmtsBranches body) (stmtsBranches handler))
  | .forIn _ _ body => stmtsBranches body
  | .withAs _ _ body => stmtsBranches body
  | .defFn _ _ body => stmtsBranches body
  | .ret _ => ⟨0, 0, 0⟩
  | .ifStmt _ thn els =>
      BranchCount.add ⟨0, 1, 0⟩
        (BranchCount.add (stmtsBranches thn) (stmtsBranches els))
  | .whileStmt _ body => BranchCount.add ⟨0, 0, 1⟩ (stmtsBranches body)

/-- The branching statements of a statement list. -/
def stmtsBranches : List PyStmt → BranchCount
  | [] => ⟨0, 0, 0⟩
  | s :: ss => BranchCount.add (stmtBranches s) (stmtsBranches ss)

end

mutual

/-- Whether an expression mentions the attribute read obj.fld. -/
def exprMentionsAttrOf (obj fld : String) : PyExpr → Bool
  | .strLit _ => false
  | .intLit _ => false
  | .boolLit _ => false
  | .name _ => false
  | .attr e f2 =>
      (match e with
       | .name x => x == obj && f2 == fld
       | _ => false) || exprMentionsAttrOf obj fld e
  | .item e i => exprMentionsAttrOf obj fld e || exprMentionsAttrOf obj fld i
  | .call f args kwargs =>
      exprMentionsAttrOf obj fld f || exprsMentionAttrOf obj fld args
        || kwMentionsAttrOf obj fld kwargs
  | .fstr parts => exprsMentionAttrOf obj fld parts
  | .fmt e _ => exprMentionsAttrOf obj fld e
  | .dict kvs => pairsMentionAttrOf obj fld kvs
  | .tup es => exprsMentionAttrOf obj fld es
  | .listE es => exprsMentionAttrOf obj fld es
  | .binop _ a b => exprMentionsAttrOf obj fld a || exprMentionsAttrOf obj fld b
  | .star2 e => exprMentionsAttrOf obj fld e

/-- Attribute-read search over an expression list. -/
def exprsMentionAttrOf (obj fld : String) : List PyExpr → Bool
  | [] => false
  | e :: es => exprMentionsAttrOf obj fld e || exprsMentionAttrOf obj fld es

/-- Attribute-read search over keyword arguments. -/
def kwMentionsAttrOf (obj fld : String) : List (String × PyExpr) → Bool
  | [] => false
  | (_, e) :: es => exprMentionsAttrOf obj fld e || kwMentionsAttrOf obj fld es

/-- Attribute-read search over dictionary entries. -/
def pairsMentionAttrOf (obj fld : String) : List (PyExpr × PyExpr) → Bool
  | [] => false
  | (k, v) :: es =>
      exprMentionsAttrOf obj fld k || exprMentionsAttrOf obj fld v
        || pairsMentionAttrOf obj fld es

end

mutual

/-- Whether a statement mentions the attribute read obj.fld. -/
def stmtMentionsAttrOf (obj fld : String) : PyStmt → Bool
  | .pyImport _ => false
  | .fromImport _ _ => false
  | .assign t e => exprMentionsAttrOf obj fld t || exprMentionsAttrOf obj fld e
  | .exprStmt e => exprMentionsAttrOf obj fld e
  | .tryExcept body _ handler =>
      stmtsMentionAttrOf obj fld body || stmtsMentionAttrOf obj fld handler
  | .forIn _ iter body =>
      exprMentionsAttrOf obj fld iter || stmtsMentionAttrOf obj fld body
  | .withAs ctx _ body =>
      exprMentionsAttrOf obj fld ctx || stmtsMentionAttrOf obj fld body
  | .defFn _ _ body => stmtsMentionAttrOf obj fld body
  | .ret e => exprMentionsAttrOf obj fld e
  | .ifStmt c thn els =>
      exprMentionsAttrOf obj fld c || stmtsMentionAttrOf obj fld thn
        || stmtsMentionAttrOf obj fld els
  | .whileStmt c body =>
      exprMentionsAttrOf obj fld c || stmtsMentionAttrOf obj fld body

/-- Attribute-read search over a statement list. -/
def stmtsMentionAttrOf (obj fld : String) : List PyStmt → Bool
  | [] => false
  | s :: ss => stmtMentionsAttrOf obj fld s || stmtsMentionAttrOf obj fld ss

end

/-- Whether a statement calls a method or function of this name. -/
def stmtCallsMethod (meth : String) (s : PyStmt) : Bool :=
  (stmtCallees s).contains meth

/-- Index of the first statement satisfying the test. -/
def firstIdxB (p : PyStmt → Bool) : List PyStmt → Option Nat
  | [] => none
  | s :: ss => if p s then some 0 else (firstIdxB p ss).map (fun n => n + 1)

/-- Whether a statement satisfying p occurs strictly before the first one
satisfying q. -/
def occursBeforeB (p q : PyStmt → Bool) (ss : List PyStmt) : Bool :=
  match firstIdxB p ss, firstIdxB q ss with
  | some i, some j => decide (i < j)
  | _, _ => false

/-- Whether the statement is a try/except at top level. -/
def stmtIsTryTop : PyStmt → Bool
  | .tryExcept _ _ _ => true
  | _ => false

/-- Whether the statement is a bare print call. -/
def isPrintStmt : PyStmt → Bool
  | .exprStmt (.call (.name p) _ _) => p == "print"
  | _ => false

/-- Whether a cell consists of print statements only. -/
def isPrintOnlyCell (ss : List PyStmt) : Bool := ss.all isPrintStmt

/-- A Python runtime value, as far as the claims need one: strings, integers,
booleans, tuples, and opaque objects tagged with their origin. -/
inductive PyVal where
  | vstr (s : String)
  | vint (n : Int)
  | vbool (b : Bool)
  | vtuple (vs : List PyVal)
  | vobj (tag : String)

/-- How a value renders when printed or interpolated into an f-string. -/
def pyRender : PyVal → String
  | .vstr s => s
  | .vint n => toString n
  | .vbool b => if b then "True" else "False"
  | .vtuple _ => "<tuple>"
  | .vobj t => t

mutual

/-- Evaluate an expression in a name environment. The error is the name whose
lookup failed: Python's NameError. External calls, attribute reads and
subscripts yield opaque objects after their subexpressions are evaluated
left to right, exactly the order Python evaluates them in. -/
def evalE (env : List (String × PyVal)) : PyExpr → Except String PyVal
  | .strLit s => .ok (.vstr s)
  | .intLit n => .ok (.vint n)
  | .boolLit b => .ok (.vbool b)
  | .name x =>
      match env.lookup x with
      | some v => .ok v
      | none => .error x
  | .attr e _ =>
      match evalE env e with
      | .error x => .error x
      | .ok _ => .ok (.vobj "<attr>")
  | .item e i =>
      match evalE env e with
      | .error x => .error x
      | .ok _ =>
        match evalE env i with
        | .error x => .error x
        | .ok _ => .ok (.vobj "<item>")
  | .call f args kwargs =>
      match evalE env f with
      | .error x => .error x
      | .ok _ =>
        match evalList env args with
        | .error x => .error x
        | .ok _ =>
          match evalKw env kwargs with
          | .error x => .error x
          | .ok _ => .ok (.vobj "<result>")
  | .fstr parts =>
      match evalList env parts with
      | .error x => .error x
      | .ok vs => .ok (.vstr (String.join (vs.map pyRender)))
  | .fmt e _ => evalE env e
  | .dict kvs =>
      match evalPairs env kvs with
      | .error x => .error x
      | .ok _ => .ok (.vobj "<dict>")
  | .tup es =>
      match evalList env es with
      | .error x => .error x
      | .ok vs => .ok (.vtuple vs)
  | .listE es =>
      match evalList env es with
      | .error x => .error x
      | .ok vs => .ok (.vtuple vs)
  | .binop _ a b =>
      match evalE env a with
      | .error x => .error x
      | .ok _ =>
        match evalE env b with
        | .error x => .error x
        | .ok _ => .ok (.vobj "<binop>")
  | .star2 e => evalE env e

/-- Evaluate a list of expressions left to right. -/
def evalList (env : List (String × PyVal)) :
    List PyExpr → Except String (List PyVal)
  | [] => .ok []
  | e :: es =>
      match evalE env e with
      | .error x => .error x
      | .ok v =>
        match evalList env es with
        | .error x => .error x
        | .ok vs => .ok (v :: vs)

/-- Evaluate keyword arguments left to right. -/
def evalKw (env : List (String × PyVal)) :
    List (String × PyExpr) → Except String Unit
  | [] => .ok ()
  | (_, e) :: es =>
      match evalE env e with
      | .error x => .error x
      | .ok _ => evalKw env es

/-- Evaluate dictionary entries left to right. -/
def evalPairs (env : List (String × PyVal)) :
    List (PyExpr × PyExpr) → Except String Unit
  | [] => .ok ()
  | (k, v) :: es =>
      match evalE env k with
      | .error x => .error x
      | .ok _ =>
        match evalE env v with
        | .error x => .error x
        | .ok _ => evalPairs env es

end

/-- The interpreter state: bound names and the lines printed so far. -/
structure PyState where
  env : List (String × PyVal)
  prints : List String

/-- A plain-name assignment binds the name; an attribute assignment mutates
an object and leaves the name table unchanged. -/
def bindTarget (t : PyExpr) (v : PyVal) (st : PyState) : PyState :=
  match t with
  | .name x => { st with env := (x, v) :: st.env }
  | _ => st

/-- The name an import statement binds: the first component of the module. -/
def headName (m : String) : String :=
  String.mk (m.toList.takeWhile (fun c => c != '.'))

mutual

/-- Run a statement list; stop at the first NameError, carrying the state
reached so far. -/
def runStmts (st : PyState) (ss : List PyStmt) : PyState × Option String :=
  match ss with
  | [] => (st, none)
  | s :: rest =>
      match runStmt st s with
      | (st2, none) => runStmts st2 rest
      | err => err

/-- Run one statement. The only exception this interpreter raises is the
NameError of an unbound name; the notebooks never catch NameError (their one
except clause names ComputeTargetException), so a try body's error
propagates. -/
def runStmt (st : PyState) (s : PyStmt) : PyState × Option String :=
  match s with
  | .pyImport ms =>
      ({ st with
          env := ms.map (fun m => (headName m, PyVal.vobj "<module>")) ++ st.env },
        none)
  | .fromImport _ ns =>
      ({ st with
          env := ns.map (fun x => (x, PyVal.vobj "<imported>")) ++ st.env },
        none)
  | .assign t e =>
      match evalE st.env e with
      | .error x => (st, some x)
      | .ok v => (bindTarget t v st, none)
  | .exprStmt (.call (.name "print") [a] []) =>
      match evalE st.env a with
      | .error x => (st, some x)
      | .ok v => ({ st with prints := st.prints ++ [pyRender v] }, none)
  | .exprStmt e =>
      match evalE st.env e with
      | .error x => (st, some x)
      | .ok _ => (st, none)
  | .tryExcept body _ _ => runStmts st body
  | .forIn x iter body =>
      match evalE st.env iter with
      | .error nameX => (st, some nameX)
      | .ok (.vtuple vs) => runLoop st x body vs
      | .ok _ => (st, some "<TypeError>")
  | .withAs ctx x body =>
      match evalE st.env ctx with
      | .error nameX => (st, some nameX)
      | .ok _ => runStmts { st with env := (x, PyVal.vobj "<ctx>") :: st.env } body
  | .defFn fname _ _ =>
      ({ st with env := (fname, PyVal.vobj "<function>") :: st.env }, none)
  | .ret e =>
      match evalE st.env e with
      | .error x => (st, some x)
      | .ok _ => (st, none)
  | .ifStmt c thn els =>
      match evalE st.env c with
      | .error x => (st, some x)
      | .ok (.vbool true) => runStmts st thn
      | .ok _ => runStmts st els
  | .whileStmt _ _ => (st, some "<while>")

/-- Run a for-loop body once per element of the iterated tuple. -/
def runLoop (st : PyState) (x : String) (body : List PyStmt) (vs : List PyVal) :
    PyState × Option String :=
  match vs with
  | [] => (st, none)
  | v :: rest =>
      match runStmts { st with env := (x, v) :: st.env } body with
      | (st2, none) => runLoop st2 x body rest
      | err => err

end

/-!
The code cells of the six notebooks, translated cell for cell. Cells that are
character-identical across notebooks (the config loader, the workspace
connection, the shared training cells, and the two copies of the
environment-preparation notebook) are defined once and reused.
-/

/-- The expression config[k]. -/
def cfgE (k : String) : PyExpr := .item (.name "config") (.strLit k)

/-- The attribute path azureml.core.fld. -/
def amlCore (fld : String) : PyExpr := .attr (.attr (.name "azureml") "core") fld

/-- The attribute path azureml.core.compute.fld. -/
def amlCompute (fld : String) : PyExpr :=
  .attr (.attr (.attr (.name "azureml") "core") "compute") fld

/-- A bare print statement. -/
def printE (e : PyExpr) : PyStmt := .exprStmt (.call (.name "print") [e] [])

/-- 01 Create compute, cell 1: import onnx; import transformers. -/
def ccImportsCell : List PyStmt := [.pyImport ["onnx"], .pyImport ["transformers"]]

/-- 01 Create compute, cell 2: import yaml and azureml.core, open
src/config.yml and load it with yaml.safe_load. -/
def ccConfigCell : List PyStmt :=
  [.pyImport ["yaml"], .pyImport ["azureml.core"],
   .withAs (.call (.name "open") [.strLit "src/config.yml", .strLit "r"] []) "f"
     [.assign (.name "config")
        (.call (.attr (.name "yaml") "safe_load") [.name "f"] [])]]

/-- The cell workspace = azureml.core.Workspace.from_config(), as it appears
in the compute-setup, environment-preparation and training notebooks. -/
def workspaceCell : List PyStmt :=
  [.assign (.name "workspace")
     (.call (.attr (amlCore "Workspace") "from_config") [] [])]

/-- 01 Create compute, cell 4: the try/except cluster lookup and creation,
then cluster.wait_for_completion(show_output=True). -/
def clusterCell : List PyStmt :=
  [.tryExcept
     [.assign (.name "cluster")
        (.call (amlCompute "ComputeTarget") []
          [("workspace", .name "workspace"), ("name", cfgE "compute_target")]),
      printE (.strLit "Found existing compute cluster")]
     "azureml.core.compute_target.ComputeTargetException"
     [.assign (.name "compute_config")
        (.call (.attr (amlCompute "AmlCompute") "provisioning_configuration") []
          [("vm_size", cfgE "compute_size"),
           ("max_nodes", cfgE "compute_node_count")]),
      .assign (.name "cluster")
        (.call (.attr (amlCompute "ComputeTarget") "create") []
          [("workspace", .name "workspace"), ("name", cfgE "compute_target"),
           ("provisioning_configuration", .name "compute_config")])],
   .exprStmt (.call (.attr (.name "cluster") "wait_for_completion") []
     [("show_output", .boolLit true)])]

/-- The 01 Create compute notebook's code cells in order. -/
def createComputeCells : List (List PyStmt) :=
  [ccImportsCell, ccConfigCell, workspaceCell, clusterCell]

/-- The cell that opens src/config.yml and loads it with yaml.safe_load, as
it appears in the training and data-preparation notebooks. -/
def loadConfigCell : List PyStmt :=
  [.withAs (.call (.name "open") [.strLit "src/config.yml", .strLit "r"] []) "f"
     [.assign (.name "config")
        (.call (.attr (.name "yaml") "safe_load") [.name "f"] [])]]

/-- Training notebooks, cell 1: import yaml, azureml.core and transformers. -/
def trainImportsCell : List PyStmt :=
  [.pyImport ["yaml"], .pyImport ["azureml.core"], .pyImport ["transformers"]]

/-- 04 train model.ipynb: environment = azureml.core.Environment.get(workspace,
config[environment]). -/
def envGetFromConfigCell : List PyStmt :=
  [.assign (.name "environment")
     (.call (.attr (amlCore "Environment") "get")
       [.name "workspace", cfgE "environment"] [])]

/-- 04 train model.ipynb.amltmp: azureml.core.Environment.list(workspace).keys(). -/
def envListCell : List PyStmt :=
  [.exprStmt (.call (.attr (.call (.attr (amlCore "Environment") "list")
     [.name "workspace"] []) "keys") [] [])]

/-- 04 train model.ipynb.amltmp: env_name = "deepspeed-transformers-datasets";
environment = azureml.core.Environment.get(workspace, name=env_name);
print(environment). The config-based lookup line of this cell is commented
out in the notebook. -/
def envGetHardcodedCell : List PyStmt :=
  [.assign (.name "env_name") (.strLit "deepspeed-transformers-datasets"),
   .assign (.name "environment")
     (.call (.attr (amlCore "Environment") "get") [.name "workspace"]
       [("name", .name "env_name")]),
   printE (.name "environment")]

/-- Training notebooks: experiment = azureml.core.Experiment(workspace,
config[experiment]). -/
def experimentCell : List PyStmt :=
  [.assign (.name "experiment")
     (.call (amlCore "Experiment") [.name "workspace", cfgE "experiment"] [])]

/-- Training notebooks: the PyTorchConfiguration and ScriptRunConfig cell. -/
def runConfigCell : List PyStmt :=
  [.assign (.name "distributed_job_config")
     (.call (.attr (amlCore "runconfig") "PyTorchConfiguration")
       [.star2 (cfgE "pytorch_configuration")] []),
   .assign (.name "aml_config")
     (.call (amlCore "ScriptRunConfig") []
       [("source_directory", cfgE "source_directory"),
        ("command", cfgE "training_command"),
        ("environment", .name "environment"),
        ("compute_target", cfgE "compute_target"),
        ("distributed_job_config", .name "distributed_job_config")])]

/-- Training notebooks: run = experiment.submit(aml_config); run.set_tags with
the six tags; print the portal url. -/
def submitTagsCell : List PyStmt :=
  [.assign (.name "run")
     (.call (.attr (.name "experiment") "submit") [.name "aml_config"] []),
   .exprStmt (.call (.attr (.name "run") "set_tags")
     [.dict [
        (.strLit "model", cfgE "model"),
        (.strLit "task", cfgE "task"),
        (.strLit "metric", cfgE "metric"),
        (.strLit "environment", cfgE "environment"),
        (.strLit "num_train_epochs",
          .call (.name "str")
            [.item (cfgE "training_args") (.strLit "num_train_epochs")] []),
        (.strLit "batch_size",
          .call (.name "str")
            [.item (cfgE "training_args")
              (.strLit "per_device_train_batch_size")] [])]] []),
   printE (.fstr [.strLit "View run details:\n",
     .call (.attr (.name "run") "get_portal_url") [] []])]

/-- Training notebooks: print(f"Run status: ...run.get_status()..."). -/
def runStatusCell : List PyStmt :=
  [printE (.fstr [.strLit "Run status: ",
     .call (.attr (.name "run") "get_status") [] []])]

/-- Training notebooks: the final-metric and portal-url prints. -/
def metricPrintCell : List PyStmt :=
  [printE (.fstr [.strLit "Ending ", cfgE "metric", .strLit ": ",
     .fmt (.item (.item (.call (.attr (.name "run") "get_metrics") [] [])
       (.binop "+" (.strLit "eval_") (cfgE "metric"))) (.intLit (-1))) ".2f"]),
   printE (.fstr [.strLit "View run details:\n",
     .call (.attr (.name "run") "get_portal_url") [] []])]

/-- Training notebooks: download the registered model named by the run tags. -/
def modelDownloadCell : List PyStmt :=
  [.assign (.name "aml_model")
     (.call (amlCore "Model") [.name "workspace"]
       [("name", .item (.attr (.name "run") "tags")
          (.strLit "registered_model_name")),
        ("version", .item (.attr (.name "run") "tags")
          (.strLit "registered_model_version"))]),
   .exprStmt (.call (.attr (.name "aml_model") "download") []
     [("exist_ok", .boolLit true)])]

/-- Training notebooks: rebuild tokenizer, model and pipeline locally. -/
def pipelineCell : List PyStmt :=
  [.assign (.name "tokenizer")
     (.call (.attr (.attr (.name "transformers") "AutoTokenizer")
       "from_pretrained") [.strLit "model"] []),
   .assign (.name "model")
     (.call (.attr (.attr (.name "transformers")
       "AutoModelForSequenceClassification") "from_pretrained")
       [.strLit "model"]
       [("id2label", .listE [.strLit "negative", .strLit "positive"])]),
   .assign (.name "pipeline")
     (.call (.attr (.name "transformers") "TextClassificationPipeline") []
       [("model", .name "model"), ("tokenizer", .name "tokenizer")])]

/-- Training notebooks: run the pipeline over the two example sentences. -/
def sentencesCell : List PyStmt :=
  [.assign (.name "sentences")
     (.tup [.strLit "i like pie", .strLit "books sent other the students"]),
   .forIn "sentence" (.name "sentences")
     [printE (.fstr [.strLit "Is '", .name "sentence",
        .strLit "' grammatical?: ",
        .item (.item (.call (.name "pipeline") [.name "sentence"] [])
          (.intLit 0)) (.strLit "label")])]]

/-- The 04 train model.ipynb notebook's code cells in order. -/
def trainNbCells : List (List PyStmt) :=
  [trainImportsCell, loadConfigCell, workspaceCell, envGetFromConfigCell,
   experimentCell, runConfigCell, submitTagsCell, runStatusCell,
   metricPrintCell, modelDownloadCell, pipelineCell, sentencesCell]

/-- The 04 train model.ipynb.amltmp notebook's code cells in order. -/
def trainAmltmpCells : List (List PyStmt) :=
  [trainImportsCell, loadConfigCell, workspaceCell, envListCell,
   envGetHardcodedCell, experimentCell, runConfigCell, submitTagsCell,
   runStatusCell, metricPrintCell, modelDownloadCell, pipelineCell,
   sentencesCell]

/-- 03 Prepare data, cell 1: imports. -/
def dpImportsCell : List PyStmt :=
  [.pyImport ["yaml"], .pyImport ["azureml.core"], .pyImport ["datasets"],
   .pyImport ["transformers"]]

/-- 03 Prepare data: data = datasets.load_dataset("glue", config[task]). -/
def dpLoadDataCell : List PyStmt :=
  [.assign (.name "data")
     (.call (.attr (.name "datasets") "load_dataset")
       [.strLit "glue", cfgE "task"] [])]

/-- 03 Prepare data: load the tokenizer, define tokenizer_function, map it
over the data batched, and save to disk. -/
def dpTokenizeCell : List PyStmt :=
  [.assign (.name "tokenizer")
     (.call (.attr (.attr (.name "transformers") "AutoTokenizer")
       "from_pretrained") [cfgE "model"] []),
   .defFn "tokenizer_function" ["examples"]
     [.ret (.call (.name "tokenizer")
        [.item (.name "examples") (.strLit "sentence")]
        [("padding", .strLit "max_length"), ("truncation", .boolLit true)])],
   .assign (.name "data")
     (.call (.attr (.name "data") "map") [.name "tokenizer_function"]
       [("batched", .boolLit true)]),
   .exprStmt (.call (.attr (.name "data") "save_to_disk") [cfgE "data_dir"] [])]

/-- 03 Prepare data: connect to the workspace and the default datastore. -/
def dpWorkspaceCell : List PyStmt :=
  [.assign (.name "workspace")
     (.call (.attr (amlCore "Workspace") "from_config") [] []),
   .assign (.name "datastore")
     (.call (.attr (.name "workspace") "get_default_datastore") [] [])]

/-- 03 Prepare data: datastore.upload of the tokenized data directory. -/
def dpUploadCell : List PyStmt :=
  [.exprStmt (.call (.attr (.name "datastore") "upload") []
     [("src_dir", cfgE "data_dir"), ("target_path", cfgE "data_dir"),
      ("overwrite", .boolLit true)])]

/-- 03 Prepare data: register the uploaded files as a named dataset. -/
def dpRegisterCell : List PyStmt :=
  [.assign (.name "name") (cfgE "task"),
   .assign (.name "description")
     (.fstr [.strLit "Glue dataset for ", cfgE "task",
       .strLit ", tokenized for ", cfgE "model"]),
   .assign (.name "tags")
     (.dict [(.strLit "task", cfgE "task"), (.strLit "model", cfgE "model")]),
   .assign (.name "path")
     (.call (.attr (.name "datastore") "path") [cfgE "data_dir"] []),
   .assign (.name "amldataset")
     (.call (.attr (.attr (amlCore "Dataset") "File") "from_files")
       [.name "path"] []),
   .assign (.name "amldataset")
     (.call (.attr (.name "amldataset") "register")
       [.name "workspace", .name "name", .name "description", .name "tags",
        .boolLit true] [])]

/-- 03 Prepare data: read amldataset.version. -/
def dpVersionCell : List PyStmt :=
  [.exprStmt (.attr (.name "amldataset") "version")]

/-- The 03 Prepare data notebook's code cells in order. -/
def dataPrepCells : List (List PyStmt) :=
  [dpImportsCell, loadConfigCell, dpLoadDataCell, dpTokenizeCell,
   dpWorkspaceCell, dpUploadCell, dpRegisterCell, dpVersionCell]

/-- 02 Prepare environment, cell 1: imports and config load. -/
def envImportsConfigCell : List PyStmt :=
  [.pyImport ["subprocess"], .pyImport ["yaml"],
   .fromImport "pathlib" ["Path"], .pyImport ["azureml.core"],
   .withAs (.call (.name "open") [.strLit "src/config.yml", .strLit "r"] []) "f"
     [.assign (.name "config")
        (.call (.attr (.name "yaml") "safe_load") [.name "f"] [])]]

/-- 02 Prepare environment: register the environment from the Dockerfile and
set its python interpreter settings. -/
def registerEnvCell : List PyStmt :=
  [.assign (.name "environment")
     (.call (.attr (amlCore "Environment") "from_dockerfile") []
       [("name", cfgE "environment"),
        ("dockerfile", .call (.attr (.call (.name "Path")
          [cfgE "environment_dockerfile"] []) "read_text") [] [])]),
   .assign (.attr (.attr (.name "environment") "python")
     "user_managed_dependencies") (.boolLit true),
   .assign (.attr (.attr (.name "environment") "python") "interpreter_path")
     (.strLit "/opt/miniconda/bin/python"),
   .assign (.name "environment")
     (.call (.attr (.name "environment") "register") [.name "workspace"] []),
   printE (.fstr [.attr (.name "environment") "name", .strLit " version ",
     .attr (.name "environment") "version", .strLit " registered in ",
     .attr (.name "workspace") "name"])]

/-- 02 Prepare environment: build = environment.build(workspace), then print
the build status. -/
def buildTriggerCell : List PyStmt :=
  [.assign (.name "build")
     (.call (.attr (.name "environment") "build") [.name "workspace"] []),
   printE (.fstr [.strLit "Current status is ",
     .attr (.name "build") "status", .strLit "."])]

/-- 02 Prepare environment: the status-and-log-url print cell. -/
def buildStatusCell : List PyStmt :=
  [printE (.fstr [.strLit "Current status is ",
     .attr (.name "build") "status",
     .strLit ". We can track the build process at \n ",
     .attr (.name "build") "log_url"])]

/-- 02 Prepare environment: derive acr_name and container_name. -/
def acrNamesCell : List PyStmt :=
  [.assign (.name "acr_name")
     (.item (.call (.attr (.item (.call (.attr (.name "workspace")
       "get_details") [] []) (.strLit "containerRegistry")) "split")
       [.strLit "/"] []) (.intLit (-1))),
   .assign (.name "container_name")
     (.fstr [.name "acr_name", .strLit ".azurecr.io/", cfgE "experiment",
       .strLit "/", cfgE "environment"])]

/-- 02 Prepare environment: the docker build/tag commands cell, iterating over
the cmds tuple it defines. -/
def dockerBuildCmdsCell : List PyStmt :=
  [.assign (.name "cmds")
     (.tup [.fstr [.strLit "docker build ", cfgE "source_directory",
        .strLit " ."],
       .strLit "LATEST=`docker images --format \x22\x7b\x7b.ID\x7d\x7d\x22 | head -n 1`",
       .fstr [.strLit "docker tag $LATEST ", .name "container_name"]]),
   .forIn "line" (.name "cmds") [printE (.name "line")]]

/-- 02 Prepare environment: print the docker run command. -/
def dockerRunPrintCell : List PyStmt :=
  [printE (.fstr [.strLit "docker run -it ", .name "container_name",
     .strLit " bash"])]

/-- 02 Prepare environment, final ACR-push cell: defines the cmds tuple of
az login, az acr login and docker push commands, then iterates over the name
docker_build_commands, which no cell of either copy ever defines. -/
def acrPushCell : List PyStmt :=
  [.assign (.name "cmds")
     (.tup [.fstr [.strLit "az login"],
       .fstr [.strLit "az acr login --name ", .name "acr_name"],
       .fstr [.strLit "docker push ", .name "container_name",
         .strLit ":latest"]]),
   .forIn "line" (.name "docker_build_commands") [printE (.name "line")]]

/-- 02 Prepare environment: build an environment from the ACR-hosted image. -/
def envFromAcrCell : List PyStmt :=
  [.assign (.name "environment")
     (.call (amlCore "Environment") [cfgE "environment"] []),
   .assign (.attr (.attr (.name "environment") "docker") "base_image")
     (.fstr [.name "container_name", .strLit ":latest"]),
   .assign (.attr (.attr (.name "environment") "python")
     "user_managed_dependencies") (.boolLit true),
   .assign (.attr (.attr (.name "environment") "python") "interpreter_path")
     (.strLit "/opt/miniconda/bin/python"),
   .assign (.name "environment")
     (.call (.attr (.name "environment") "register") [.name "workspace"] []),
   .exprStmt (.call (.attr (.name "environment") "build") [.name "workspace"] [])]

/-- The 02 Prepare environment notebook's code cells in order (the copy kept
beside the amltmp training notebook). -/
def prepEnvCells : List (List PyStmt) :=
  [envImportsConfigCell, workspaceCell, registerEnvCell, buildTriggerCell,
   buildStatusCell, acrNamesCell, dockerBuildCmdsCell, dockerRunPrintCell,
   acrPushCell, envFromAcrCell]

/-- The standalone copy of 02 Prepare environment: its code cells are
character-identical to the other copy, in the same order, so it is assembled
from the same cell definitions. -/
def prepEnv03Cells : List (List PyStmt) :=
  [envImportsConfigCell, workspaceCell, registerEnvCell, buildTriggerCell,
   buildStatusCell, acrNamesCell, dockerBuildCmdsCell, dockerRunPrintCell,
   acrPushCell, envFromAcrCell]

/-- Every code cell of the six notebooks. -/
def allNotebookCells : List (List PyStmt) :=
  createComputeCells ++ trainNbCells ++ dataPrepCells ++ trainAmltmpCells
    ++ prepEnvCells ++ prepEnv03Cells

/-- Every statement of every notebook, in notebook and cell order. -/
def allNotebookStmts : List PyStmt := allNotebookCells.flatten

/-- Every module the notebooks import. -/
def allImportedModules : List String := stmtsImports allNotebookStmts

/-- The name of every call target of every notebook statement. -/
def allCalleeNames : List String := stmtsCallees allNotebookStmts

/-- Python concurrency and parallelism modules. -/
def concurrencyModules : List String :=
  ["threading", "multiprocessing", "concurrent.futures", "asyncio", "_thread",
   "queue"]

/-- Constructors of threads, pools, locks and other concurrency or
resource-sharing primitives. -/
def concurrencyPrimitives : List String :=
  ["Thread", "Lock", "RLock", "Semaphore", "BoundedSemaphore", "Condition",
   "Event", "Barrier", "Pool", "Process", "ThreadPoolExecutor",
   "ProcessPoolExecutor", "run_in_executor", "create_task"]

/-- C7: for environment-build and training-job failures the notebooks only
read the external status field and print it. The build-status cell and the
run-status cell consist solely of print statements reading build.status,
build.log_url and run.get_status(); the statement after the build trigger is
such a print as well; and across every cell of all six notebooks the only
branching statement of any kind is the compute-cluster try/except of the
compute-setup notebook (one try/except, no if, no while), so no notebook
code branches on a failure status, retries a failed operation, or performs
recovery or partial-failure handling after submission. -/
theorem failures_only_printed :
    isPrintOnlyCell buildStatusCell = true
    ∧ stmtsMentionAttrOf "build" "status" buildStatusCell = true
    ∧ stmtsMentionAttrOf "build" "log_url" buildStatusCell = true
    ∧ isPrintOnlyCell (buildTriggerCell.drop 1) = true
    ∧ stmtsMentionAttrOf "build" "status" (buildTriggerCell.drop 1) = true
    ∧ isPrintOnlyCell runStatusCell = true
    ∧ (stmtsCallees runStatusCell).contains "get_status" = true
    ∧ stmtsBranches allNotebookStmts = ⟨1, 0, 0⟩
    ∧ stmtsBranches clusterCell = ⟨1, 0, 0⟩ := by
  set_option maxRecDepth 8192 in decide

/-- The blocking poll-until-complete methods of the AzureML SDK surface these
notebooks draw on: the wait calls that return only once the remote operation
has finished. A one-shot status read such as run.get_status() or the
build.status attribute is not among them. -/
def blockingWaitMethods : List String :=
  ["wait_for_completion", "wait_for_creation", "wait_for_deployment",
   "wait_for_provisioning"]

/-- C10 counterexample: the training notebook submits the long-running
training run yet contains no blocking or poll-until-complete call at all
(none of the SDK wait methods is called anywhere in it), and the next cells'
work proceeds regardless: the metric read follows the one-shot
run.get_status() print and the model download follows the metric read, with
nothing gating on completion. So it is false that each long-running remote
operation is awaited by a blocking or poll-until-complete call before the
next cell's work proceeds. -/
theorem train_submit_not_awaited_counterexample :
    (stmtsCallees trainNbCells.flatten).contains "submit" = true
    ∧ blockingWaitMethods.all
        (fun w => !((stmtsCallees trainNbCells.flatten).contains w)) = true
    ∧ occursBeforeB (stmtCallsMethod "get_status")
        (stmtCallsMethod "get_metrics") trainNbCells.flatten = true
    ∧ occursBeforeB (stmtCallsMethod "get_metrics")
        (stmtCallsMethod "download") trainNbCells.flatten = true := by
  set_option maxRecDepth 8192 in decide

/-- C10 (amended): the notebooks are single-threaded and sequential — every
imported module is one of the seven data or SDK modules the cells name and
none is a concurrency module, and no call anywhere in any cell targets a
thread, pool, lock or other concurrency or resource-sharing primitive — but
of the long-running remote operations only cluster provisioning is awaited
by a blocking poll-until-complete call (cluster.wait_for_completion after
the create); the environment build and the submitted training run are not
awaited: the training, data and environment notebooks call no blocking wait
method at all, each of those operations is followed in program order only by
one-shot status prints (the print-only run-status and build-status cells),
and later cells proceed without anything gating on completion. -/
theorem notebooks_no_concurrency_only_cluster_waited :
    allImportedModules.all (fun m =>
      ["onnx", "transformers", "yaml", "azureml.core", "datasets",
       "subprocess", "pathlib"].contains m) = true
    ∧ allImportedModules.all (fun m => !(concurrencyModules.contains m)) = true
    ∧ allCalleeNames.all (fun p => !(concurrencyPrimitives.contains p)) = true
    ∧ occursBeforeB (stmtCallsMethod "create")
        (stmtCallsMethod "wait_for_completion") createComputeCells.flatten = true
    ∧ blockingWaitMethods.all (fun w =>
        !((stmtsCallees trainNbCells.flatten).contains w)
        && !((stmtsCallees trainAmltmpCells.flatten).contains w)
        && !((stmtsCallees dataPrepCells.flatten).contains w)
        && !((stmtsCallees prepEnvCells.flatten).contains w)
        && !((stmtsCallees prepEnv03Cells.flatten).contains w)) = true
    ∧ occursBeforeB (stmtCallsMethod "submit") (stmtCallsMethod "get_status")
        trainNbCells.flatten = true
    ∧ occursBeforeB (stmtCallsMethod "submit") (stmtCallsMethod "get_status")
        trainAmltmpCells.flatten = true
    ∧ occursBeforeB (stmtCallsMethod "build")
        (fun s => stmtMentionsAttrOf "build" "status" s)
        prepEnvCells.flatten = true
    ∧ occursBeforeB (stmtCallsMethod "build")
        (fun s => stmtMentionsAttrOf "build" "status" s)
        prepEnv03Cells.flatten = true
    ∧ isPrintOnlyCell runStatusCell = true
    ∧ isPrintOnlyCell buildStatusCell = true := by
  set_option maxRecDepth 8192 in decide

/-- C9: in both copies of the environment-preparation notebook the final
ACR-push cell is acrPushCell (cell index 8), which defines the tuple cmds but
iterates over the undefined name docker_build_commands; executing it in any
environment that does not bind docker_build_commands raises a NameError (for
docker_build_commands itself, or earlier for acr_name or container_name when
the preceding cells were skipped too) and prints nothing. -/
theorem acr_push_cell_always_name_errors (env : List (String × PyVal))
    (h : env.lookup "docker_build_commands" = none) :
    ((runStmts ⟨env, []⟩ acrPushCell).2 = some "docker_build_commands"
      ∨ (runStmts ⟨env, []⟩ acrPushCell).2 = some "acr_name"
      ∨ (runStmts ⟨env, []⟩ acrPushCell).2 = some "container_name")
    ∧ (runStmts ⟨env, []⟩ acrPushCell).1.prints = []
    ∧ prepEnvCells[8]? = some acrPushCell
    ∧ prepEnv03Cells[8]? = some acrPushCell := by
  refine ⟨?_, ?_, rfl, rfl⟩ <;>
  · rcases h1 : env.lookup "acr_name" with _ | v1 <;>
      rcases h2 : env.lookup "container_name" with _ | v2 <;>
      simp [acrPushCell, runStmts, runStmt, runLoop, evalE, evalList, evalKw,
        evalPairs, pyRender, bindTarget, List.lookup, h, h1, h2]

/-- The environment the earlier notebook cells leave for the ACR-push cell:
acr_name and container_name bound to strings, docker_build_commands unbound. -/
def acrEnvW : List (String × PyVal) :=
  [("acr_name", .vstr "myregistry"),
   ("container_name",
     .vstr "myregistry.azurecr.io/training-quickstart/deepspeed-transformers")]

/-- C9 witness: at the concrete environment acrEnvW the ACR-push cell raises
a NameError and prints nothing. -/
theorem acr_push_cell_always_name_errors_witness :
    ((runStmts ⟨acrEnvW, []⟩ acrPushCell).2 = some "docker_build_commands"
      ∨ (runStmts ⟨acrEnvW, []⟩ acrPushCell).2 = some "acr_name"
      ∨ (runStmts ⟨acrEnvW, []⟩ acrPushCell).2 = some "container_name")
    ∧ (runStmts ⟨acrEnvW, []⟩ acrPushCell).1.prints = []
    ∧ prepEnvCells[8]? = some acrPushCell
    ∧ prepEnv03Cells[8]? = some acrPushCell :=
  acr_push_cell_always_name_errors acrEnvW rfl
